import Mathlib

/-!
Shallow embedding of the Obsidian "Simple Time Tracker" plugin (src/main.ts).

Timestamps and durations are modelled as `ℤ` (JavaScript numbers holding
integer milliseconds); the fractional arithmetic of the duration formatter
is modelled over `ℚ` (`Math.round`, `Math.floor` and the `%` float-modulo
of JavaScript are given explicit definitions).  The plugin's settings object
is a record, the `timeTracking` map is an association list, and the active
view (`this.app.workspace.activeLeaf`) is a small inductive type.
-/

/-- JavaScript truthiness of a nullable number (`!x` is true for `null` and `0`). -/
def jsTruthyNum : Option ℤ → Bool
  | none => false
  | some n => n ≠ 0

/-- JavaScript truthiness of a nullable string (`!s` is true for `null` and `""`). -/
def jsTruthyStr : Option String → Bool
  | none => false
  | some s => s ≠ ""

/-- Does the first character list occur at the head of the second one? -/
def charsLeadMatch : List Char → List Char → Bool
  | [], _ => true
  | _ :: _, [] => false
  | a :: as, b :: bs => a = b && charsLeadMatch as bs

/-- Does the second character list occur somewhere inside the first one? -/
def charsContains : List Char → List Char → Bool
  | [], needle => needle.isEmpty
  | h :: t, needle => charsLeadMatch needle (h :: t) || charsContains t needle

/-- JavaScript `haystack.includes(needle)` substring containment on strings. -/
def jsIncludes (haystack needle : String) : Bool :=
  charsContains haystack.data needle.data

/-- JavaScript `Math.round`: rounds half-way cases toward positive infinity. -/
def jsRoundQ (q : ℚ) : ℤ := ⌊q + 1/2⌋

/-- Truncation toward zero, the implicit integer part used by the JavaScript
`%` operator. -/
def jsTruncQ (q : ℚ) : ℤ := if 0 ≤ q then ⌊q⌋ else ⌈q⌉

/-- JavaScript `a % b` on numbers: `a - b * trunc(a / b)` (sign of the dividend). -/
def jsFmodQ (a b : ℚ) : ℚ := a - b * (jsTruncQ (a / b) : ℚ)

/-- Line 126: `const minutes = Math.round(elapsedTime / 6000) / 10`. -/
def jsMinutes (elapsedTime : ℤ) : ℚ := (jsRoundQ ((elapsedTime : ℚ) / 6000) : ℚ) / 10

/-- Line 129: `const hours = Math.floor(minutes / 60)`. -/
def jsHours (elapsedTime : ℤ) : ℤ := ⌊jsMinutes elapsedTime / 60⌋

/-- Line 130: `const remainingMinutes = Math.floor(minutes % 60)`. -/
def jsRemainingMinutes (elapsedTime : ℤ) : ℤ := ⌊jsFmodQ (jsMinutes elapsedTime) 60⌋

/-- Line 131: `const remainingSeconds = Math.round((minutes % 1) * 60)`. -/
def jsRemainingSeconds (elapsedTime : ℤ) : ℤ :=
  jsRoundQ (jsFmodQ (jsMinutes elapsedTime) 1 * 60)

/-- JavaScript `s.padStart(2, "0")`. -/
def padStart2 (s : String) : String :=
  if s.length ≥ 2 then s else String.mk (List.replicate (2 - s.length) '0') ++ s

/-- Lines 126-139 of `logTimeToEditor`: the elapsed milliseconds rendered as
a zero-padded `HH:MM:SS` string. -/
def formatDuration (elapsedTime : ℤ) : String :=
  padStart2 (toString (jsHours elapsedTime)) ++ ":" ++
    padStart2 (toString (jsRemainingMinutes elapsedTime)) ++ ":" ++
    padStart2 (toString (jsRemainingSeconds elapsedTime))

/-- Mathematical modulo on rationals, `a - b * floor (a / b)`, the textbook
reading of "x mod y" used by the specification's formulas. -/
def ratMod (a b : ℚ) : ℚ := a - b * (⌊a / b⌋ : ℚ)

/-- Modelled from the spec: `minutes = round(elapsedMs / 6000) / 10`. -/
def specMinutes (elapsedMs : ℤ) : ℚ := (jsRoundQ ((elapsedMs : ℚ) / 6000) : ℚ) / 10

/-- Modelled from the spec: the duration formatter of §4.2 steps 1-3, with
`mod` read as mathematical modulo (`ratMod`). -/
def formatDuration_spec (elapsedMs : ℤ) : String :=
  padStart2 (toString (⌊specMinutes elapsedMs / 60⌋)) ++ ":" ++
    padStart2 (toString (⌊ratMod (specMinutes elapsedMs) 60⌋)) ++ ":" ++
    padStart2 (toString (jsRoundQ (ratMod (specMinutes elapsedMs) 1 * 60)))

/-- The `TimeTrackerSettings` interface (src/main.ts lines 17-24); the
`timeTracking` object is an association list from note path to milliseconds. -/
structure TimeTrackerSettings where
  startTime : Option ℤ
  currentNote : Option String
  dateHeader : String
  durationHeader : String
  logSectionHeader : String
  timeTracking : List (String × ℤ)
deriving DecidableEq

/-- The `DEFAULT_SETTINGS` constant (src/main.ts lines 26-33). -/
def DEFAULT_SETTINGS : TimeTrackerSettings :=
  { startTime := none
    currentNote := none
    dateHeader := "Starting date"
    durationHeader := "Overall duration"
    logSectionHeader := "Time Tracking Log"
    timeTracking := [] }

/-- The persisted data blob handed back by `loadData()`: each key may be
absent (outer `Option`); `startTime` and `currentNote` are themselves
nullable when present. -/
structure PersistedData where
  startTime : Option (Option ℤ)
  currentNote : Option (Option String)
  dateHeader : Option String
  durationHeader : Option String
  logSectionHeader : Option String
  timeTracking : Option (List (String × ℤ))
deriving DecidableEq

/-- A `PersistedData` with every key absent (a fresh install). -/
def emptyPersistedData : PersistedData :=
  { startTime := none, currentNote := none, dateHeader := none,
    durationHeader := none, logSectionHeader := none, timeTracking := none }

/-- The `loadSettings` merge (src/main.ts lines 66-72):
`Object.assign({}, DEFAULT_SETTINGS, loadedData)` — a key present in the
loaded data overrides the default, a missing key keeps the default. -/
def loadSettings (d : PersistedData) : TimeTrackerSettings :=
  { startTime := d.startTime.getD DEFAULT_SETTINGS.startTime
    currentNote := d.currentNote.getD DEFAULT_SETTINGS.currentNote
    dateHeader := d.dateHeader.getD DEFAULT_SETTINGS.dateHeader
    durationHeader := d.durationHeader.getD DEFAULT_SETTINGS.durationHeader
    logSectionHeader := d.logSectionHeader.getD DEFAULT_SETTINGS.logSectionHeader
    timeTracking := d.timeTracking.getD DEFAULT_SETTINGS.timeTracking }

/-- Reading `timeTracking[key]` from the association list. -/
def lookupTT : List (String × ℤ) → String → Option ℤ
  | [], _ => none
  | (k, v) :: rest, key => if k = key then some v else lookupTT rest key

/-- Writing `timeTracking[key] = val` into the association list. -/
def setTT : List (String × ℤ) → String → ℤ → List (String × ℤ)
  | [], key, val => [(key, val)]
  | (k, v) :: rest, key, val =>
      if k = key then (k, val) :: rest else (k, v) :: setTT rest key val

/-- Lines 100-105 of `stopTrackingTime`:
`if (timeTracking[note]) { timeTracking[note] += elapsed } else
{ timeTracking[note] = elapsed }` — note the truthiness test, under which an
existing entry of value `0` takes the `else` branch. -/
def bumpTT (tt : List (String × ℤ)) (note : String) (elapsedTime : ℤ) :
    List (String × ℤ) :=
  if jsTruthyNum (lookupTT tt note) then
    setTT tt note ((lookupTT tt note).getD 0 + elapsedTime)
  else
    setTT tt note elapsedTime

/-- The focused workspace leaf at the moment `stopTrackingTime` runs: absent,
a non-Markdown view, or a Markdown editor split into the text before and
after the cursor. -/
inductive ViewState
  | noLeaf : ViewState
  | nonMarkdown : ViewState
  | markdown (before after : String) : ViewState
deriving DecidableEq

/-- The observable outcome of a command: the settings object afterwards, the
view afterwards, the notices shown, and whether `saveSettings()` ran. -/
structure StopResult where
  settings : TimeTrackerSettings
  view : ViewState
  notices : List String
  saved : Bool
deriving DecidableEq

/-- Lines 141-157 of `logTimeToEditor`: the block spliced into the document
at the cursor (`nowStr` stands for `new Date().toLocaleString()`). -/
def logInsertedText (st : TimeTrackerSettings) (content : String)
    (nowStr : String) (elapsedTime : ℤ) : String :=
  let logEntry := "| " ++ nowStr ++ " | " ++ formatDuration elapsedTime ++ " |\n"
  let tableHeader :=
    "| " ++ st.dateHeader ++ " | " ++ st.durationHeader ++ " |\n|------|----------|\n"
  let logSectionHeader := "## " ++ st.logSectionHeader
  let newContent :=
    if jsIncludes content logSectionHeader then
      tableHeader ++ logEntry
    else
      logSectionHeader ++ "\n\n" ++ tableHeader ++ logEntry
  "\n\n" ++ newContent ++ "\n"

/-- The `startTrackingTime` command (src/main.ts lines 78-88): returns the settings
afterwards, the notices shown, and whether `saveSettings()` ran. -/
def startTrackingTime (now : ℤ) (activeFile : Option String)
    (st : TimeTrackerSettings) : TimeTrackerSettings × List String × Bool :=
  match activeFile with
  | none => (st, ["No active file to start tracking time"], false)
  | some path =>
      ({ st with startTime := some now, currentNote := some path },
        ["Time tracking started"], true)

/-- The `stopTrackingTime` command (src/main.ts lines 90-123).  `now` is `Date.now()`,
`nowStr` is `new Date().toLocaleString()` used in the log row. -/
def stopTrackingTime (now : ℤ) (nowStr : String) (view : ViewState)
    (st : TimeTrackerSettings) : StopResult :=
  if !jsTruthyNum st.startTime || !jsTruthyStr st.currentNote then
    { settings := st, view := view,
      notices := ["No tracking session in progress"], saved := false }
  else
    let note := st.currentNote.getD ""
    let elapsedTime := now - st.startTime.getD 0
    let st1 : TimeTrackerSettings :=
      { st with startTime := none,
                timeTracking := bumpTT st.timeTracking note elapsedTime }
    match view with
    | ViewState.markdown before after =>
        let inserted := logInsertedText st1 (before ++ after) nowStr elapsedTime
        { settings := { st1 with currentNote := none },
          view := ViewState.markdown (before ++ inserted) after,
          notices := ["Time logged successfully"], saved := true }
    | ViewState.nonMarkdown =>
        { settings := { st1 with currentNote := none },
          view := ViewState.nonMarkdown,
          notices := ["No active Markdown file to log time"], saved := true }
    | ViewState.noLeaf =>
        { settings := { st1 with currentNote := none },
          view := ViewState.noLeaf,
          notices := ["No active file to log time"], saved := true }

/-- Example state with an active session started at time 10 on `note.md`. -/
def exampleActiveState : TimeTrackerSettings :=
  { startTime := some 10, currentNote := some "note.md",
    dateHeader := "Starting date", durationHeader := "Overall duration",
    logSectionHeader := "Time Tracking Log", timeTracking := [] }

/-- Helper: evaluate a rational floor through integer division. -/
theorem floorQ_eval (q : ℚ) (a : ℤ) (b : ℕ) (h : q = (a : ℚ) / (b : ℚ)) :
    ⌊q⌋ = a / (b : ℤ) := by
  rw [h, Rat.floor_intCast_div_natCast]

theorem roundQ_intCast (m : ℤ) : jsRoundQ ((m : ℤ) : ℚ) = m := by
  unfold jsRoundQ
  have h0 : ⌊((1 : ℚ)/2)⌋ = 0 := by
    rw [show ((1 : ℚ)/2) = ((1 : ℤ) : ℚ) / ((2 : ℕ) : ℚ) by norm_num,
      Rat.floor_intCast_div_natCast]
    decide
  rw [Int.floor_int_add, h0, add_zero]

theorem jsRound_nonneg (e : ℤ) (h : 0 ≤ e) : 0 ≤ jsRoundQ ((e : ℚ) / 6000) := by
  unfold jsRoundQ
  apply Int.le_floor.mpr
  have he : (0 : ℚ) ≤ (e : ℚ) := Int.cast_nonneg.mpr h
  have h1 : (0 : ℚ) ≤ (e : ℚ) / 6000 := div_nonneg he (by norm_num)
  push_cast
  linarith

theorem jsTrunc_nonneg_floor (q : ℚ) (h : 0 ≤ q) : jsTruncQ q = ⌊q⌋ := by
  unfold jsTruncQ
  rw [if_pos h]

theorem hours_closed (e : ℤ) :
    jsHours e = jsRoundQ ((e : ℚ) / 6000) / 600 := by
  unfold jsHours jsMinutes
  rw [show jsRoundQ ((e : ℚ) / 6000) / 600 =
      jsRoundQ ((e : ℚ) / 6000) / ((600 : ℕ) : ℤ) by norm_num]
  apply floorQ_eval
  push_cast
  ring

theorem remMinutes_closed (e : ℤ) (h : 0 ≤ e) :
    jsRemainingMinutes e = (jsRoundQ ((e : ℚ) / 6000)) % 600 / 10 := by
  unfold jsRemainingMinutes jsMinutes jsFmodQ
  have hn : 0 ≤ jsRoundQ ((e : ℚ) / 6000) := jsRound_nonneg e h
  set n := jsRoundQ ((e : ℚ) / 6000) with hndef
  have hq : (0 : ℚ) ≤ ((n : ℚ) / 10) / 60 :=
    div_nonneg (div_nonneg (Int.cast_nonneg.mpr hn) (by norm_num)) (by norm_num)
  rw [jsTrunc_nonneg_floor _ hq]
  have h3 : ⌊((n : ℚ) / 10) / 60⌋ = n / ((600 : ℕ) : ℤ) :=
    floorQ_eval _ n 600 (by push_cast; ring)
  rw [h3]
  rw [show (n : ℚ) / 10 - 60 * ((n / ((600 : ℕ) : ℤ) : ℤ) : ℚ) =
      ((n % 600 : ℤ) : ℚ) / ((10 : ℕ) : ℚ) by
    rw [Int.emod_def]; push_cast; ring]
  rw [Rat.floor_intCast_div_natCast]
  norm_num

theorem remSeconds_closed (e : ℤ) (h : 0 ≤ e) :
    jsRemainingSeconds e = 6 * (jsRoundQ ((e : ℚ) / 6000) % 10) := by
  unfold jsRemainingSeconds jsMinutes jsFmodQ
  have hn : 0 ≤ jsRoundQ ((e : ℚ) / 6000) := jsRound_nonneg e h
  set n := jsRoundQ ((e : ℚ) / 6000) with hndef
  have hq : (0 : ℚ) ≤ ((n : ℚ) / 10) / 1 :=
    div_nonneg (div_nonneg (Int.cast_nonneg.mpr hn) (by norm_num)) (by norm_num)
  rw [jsTrunc_nonneg_floor _ hq]
  have h3 : ⌊((n : ℚ) / 10) / 1⌋ = n / ((10 : ℕ) : ℤ) :=
    floorQ_eval _ n 10 (by push_cast; ring)
  rw [h3]
  rw [show ((n : ℚ) / 10 - 1 * ((n / ((10 : ℕ) : ℤ) : ℤ) : ℚ)) * 60 =
      ((6 * (n % 10) : ℤ) : ℚ) by
    rw [Int.emod_def]; push_cast; ring]
  exact roundQ_intCast _

theorem roundQ_65000 : jsRoundQ (((65000 : ℤ) : ℚ) / 6000) = 11 := by
  unfold jsRoundQ
  rw [show ((65000 : ℤ) : ℚ) / 6000 + 1/2 = ((34 : ℤ) : ℚ) / ((3 : ℕ) : ℚ) by
    push_cast; norm_num]
  rw [Rat.floor_intCast_div_natCast]
  decide

theorem fd_hours_65000 : jsHours 65000 = 0 := by
  rw [hours_closed, roundQ_65000]
  decide

theorem fd_rm_65000 : jsRemainingMinutes 65000 = 1 := by
  rw [remMinutes_closed 65000 (by norm_num), roundQ_65000]
  decide

theorem fd_rs_65000 : jsRemainingSeconds 65000 = 6 := by
  rw [remSeconds_closed 65000 (by norm_num), roundQ_65000]
  decide

theorem fd_65000 : formatDuration 65000 = "00:01:06" := by
  unfold formatDuration
  rw [fd_hours_65000, fd_rm_65000, fd_rs_65000]
  rfl

theorem jsFmodQ_eq_ratMod (a b : ℚ) (h : 0 ≤ a / b) : jsFmodQ a b = ratMod a b := by
  unfold jsFmodQ ratMod jsTruncQ
  rw [if_pos h]

theorem fd_eq_spec (e : ℤ) (h : 0 ≤ e) : formatDuration e = formatDuration_spec e := by
  have hn : 0 ≤ jsRoundQ ((e : ℚ) / 6000) := jsRound_nonneg e h
  have hmin : 0 ≤ jsMinutes e := by
    unfold jsMinutes
    exact div_nonneg (Int.cast_nonneg.mpr hn) (by norm_num)
  have hspec : specMinutes e = jsMinutes e := rfl
  unfold formatDuration formatDuration_spec jsHours jsRemainingMinutes jsRemainingSeconds
  rw [hspec,
    jsFmodQ_eq_ratMod (jsMinutes e) 60 (div_nonneg hmin (by norm_num)),
    jsFmodQ_eq_ratMod (jsMinutes e) 1 (div_nonneg hmin (by norm_num))]

theorem secs_granular (e : ℤ) (h : 0 ≤ e) :
    6 ∣ jsRemainingSeconds e ∧ 0 ≤ jsRemainingSeconds e ∧ jsRemainingSeconds e ≤ 54 := by
  rw [remSeconds_closed e h]
  have h1 : 0 ≤ jsRoundQ ((e : ℚ) / 6000) % 10 :=
    Int.emod_nonneg _ (by norm_num)
  have h2 : jsRoundQ ((e : ℚ) / 6000) % 10 < 10 :=
    Int.emod_lt_of_pos _ (by norm_num)
  exact ⟨⟨_, rfl⟩, by omega, by omega⟩

-- state machine lemmas
theorem stop_inactive (now : ℤ) (nowStr : String) (view : ViewState)
    (st : TimeTrackerSettings)
    (h : jsTruthyNum st.startTime = false ∨ jsTruthyStr st.currentNote = false) :
    stopTrackingTime now nowStr view st =
      ⟨st, view, ["No tracking session in progress"], false⟩ := by
  unfold stopTrackingTime
  rcases h with h | h <;> rw [h] <;> simp

theorem stop_active (now : ℤ) (nowStr : String) (view : ViewState)
    (st : TimeTrackerSettings) (t : ℤ) (note : String)
    (ht : st.startTime = some t) (ht0 : t ≠ 0)
    (hn : st.currentNote = some note) (hn0 : note ≠ "") :
    (stopTrackingTime now nowStr view st).settings =
      { st with startTime := none, currentNote := none,
                timeTracking := bumpTT st.timeTracking note (now - t) } := by
  unfold stopTrackingTime
  rw [ht, hn]
  have h1 : jsTruthyNum (some t) = true := by simp [jsTruthyNum, ht0]
  have h2 : jsTruthyStr (some note) = true := by simp [jsTruthyStr, hn0]
  rw [h1, h2]
  cases view <;> simp

theorem lookup_set_self (tt : List (String × ℤ)) (key : String) (val : ℤ) :
    lookupTT (setTT tt key val) key = some val := by
  induction tt with
  | nil => simp [setTT, lookupTT]
  | cons kv rest ih =>
      obtain ⟨k, v⟩ := kv
      by_cases hk : k = key
      · simp [setTT, lookupTT, hk]
      · simp [setTT, lookupTT, hk, ih]

theorem lookup_bump (tt : List (String × ℤ)) (note : String) (e : ℤ) :
    lookupTT (bumpTT tt note e) note =
      some ((lookupTT tt note).getD 0 + e) := by
  unfold bumpTT
  by_cases h : jsTruthyNum (lookupTT tt note) = true
  · rw [if_pos h, lookup_set_self]
  · rw [if_neg h, lookup_set_self]
    cases hl : lookupTT tt note with
    | none => simp
    | some v =>
        rw [hl] at h
        have : v = 0 := by
          by_contra hv
          exact h (by simp [jsTruthyNum, hv])
        simp [this]

/-- C1 counterexample: stopping at time 5 a session started at time 10 (note
`note.md`, empty ledger) records the negative value `-5` into the ledger; the
code does not replace a negative `now() - startTime` by `0` as claimed. -/
theorem C1_negative_elapsed_cex :
    lookupTT (stopTrackingTime 5 "ts" ViewState.noLeaf
        exampleActiveState).settings.timeTracking "note.md" = some (-5) ∧
    (-5 : ℤ) < 0 :=
  ⟨by decide, by decide⟩

/-- C1 (amended): for every active session, `stop()` computes
`elapsedMs = now() - startTime` in integer milliseconds and records it into
`DurationLedger[documentId]` as-is, with no clamping of negative differences:
a backwards clock adjustment yields a negative ledger entry. -/
theorem C1_elapsed_recorded_unclamped (now : ℤ) (nowStr : String)
    (view : ViewState) (st : TimeTrackerSettings) (t : ℤ) (note : String)
    (ht : st.startTime = some t) (ht0 : t ≠ 0)
    (hn : st.currentNote = some note) (hn0 : note ≠ "")
    (habs : lookupTT st.timeTracking note = none) :
    lookupTT (stopTrackingTime now nowStr view st).settings.timeTracking note =
      some (now - t) := by
  rw [stop_active now nowStr view st t note ht ht0 hn hn0]
  show lookupTT (bumpTT st.timeTracking note (now - t)) note = some (now - t)
  rw [lookup_bump, habs]
  simp

/-- C1 witness: the amended theorem applied at the concrete active session
started at 10 and stopped at 5, yielding the entry `5 - 10`. -/
theorem C1_elapsed_recorded_unclamped_witness :
    exampleActiveState.startTime = some 10 ∧ (10 : ℤ) ≠ 0 ∧
    exampleActiveState.currentNote = some "note.md" ∧ "note.md" ≠ "" ∧
    lookupTT exampleActiveState.timeTracking "note.md" = none ∧
    lookupTT (stopTrackingTime 5 "ts" ViewState.noLeaf
        exampleActiveState).settings.timeTracking "note.md" = some (5 - 10) :=
  ⟨rfl, by decide, rfl, by decide, rfl,
    C1_elapsed_recorded_unclamped 5 "ts" ViewState.noLeaf exampleActiveState
      10 "note.md" rfl (by decide) rfl (by decide) rfl⟩

/-- C2: for every existing text and settings, if the text contains the
rendered section header `## logSectionHeader` as a substring, the inserted
block is only the table header (column header row plus separator row)
followed by the new row; otherwise it is the section header line, a blank
line, the table header and the new row; in both cases the block is wrapped
with a leading two newlines and a trailing newline. -/
theorem C2_inserted_block_shape (st : TimeTrackerSettings)
    (content nowStr : String) (e : ℤ) :
    (jsIncludes content ("## " ++ st.logSectionHeader) = true →
      logInsertedText st content nowStr e =
        "\n\n" ++
          (("| " ++ st.dateHeader ++ " | " ++ st.durationHeader ++
              " |\n|------|----------|\n") ++
            ("| " ++ nowStr ++ " | " ++ formatDuration e ++ " |\n")) ++ "\n") ∧
    (jsIncludes content ("## " ++ st.logSectionHeader) = false →
      logInsertedText st content nowStr e =
        "\n\n" ++
          ("## " ++ st.logSectionHeader ++ "\n\n" ++
            ("| " ++ st.dateHeader ++ " | " ++ st.durationHeader ++
              " |\n|------|----------|\n") ++
            ("| " ++ nowStr ++ " | " ++ formatDuration e ++ " |\n")) ++ "\n") := by
  constructor
  · intro h
    simp [logInsertedText, h]
  · intro h
    simp [logInsertedText, h]

/-- C2 witness: both branches of the theorem applied at concrete inputs — a
text equal to the rendered header (contains it) and the text "notes" (does
not contain it), with the default settings. -/
theorem C2_inserted_block_shape_witness :
    (jsIncludes "## Time Tracking Log"
        ("## " ++ DEFAULT_SETTINGS.logSectionHeader) = true ∧
      logInsertedText DEFAULT_SETTINGS "## Time Tracking Log" "now" 0 =
        "\n\n" ++
          (("| " ++ DEFAULT_SETTINGS.dateHeader ++ " | " ++
              DEFAULT_SETTINGS.durationHeader ++ " |\n|------|----------|\n") ++
            ("| " ++ "now" ++ " | " ++ formatDuration 0 ++ " |\n")) ++ "\n") ∧
    (jsIncludes "notes" ("## " ++ DEFAULT_SETTINGS.logSectionHeader) = false ∧
      logInsertedText DEFAULT_SETTINGS "notes" "now" 0 =
        "\n\n" ++
          ("## " ++ DEFAULT_SETTINGS.logSectionHeader ++ "\n\n" ++
            ("| " ++ DEFAULT_SETTINGS.dateHeader ++ " | " ++
              DEFAULT_SETTINGS.durationHeader ++ " |\n|------|----------|\n") ++
            ("| " ++ "now" ++ " | " ++ formatDuration 0 ++ " |\n")) ++ "\n") :=
  ⟨⟨by decide,
      (C2_inserted_block_shape DEFAULT_SETTINGS "## Time Tracking Log" "now" 0).1
        (by decide)⟩,
    ⟨by decide,
      (C2_inserted_block_shape DEFAULT_SETTINGS "notes" "now" 0).2 (by decide)⟩⟩

/-- C3: for every nonnegative elapsedMs the formatted duration equals the
specification pipeline `minutes = round(elapsedMs/6000)/10`,
`hours = floor(minutes/60)`, `remainingMinutes = floor(minutes mod 60)`,
`remainingSeconds = round((minutes mod 1) * 60)` zero-padded and joined as
HH:MM:SS; in particular elapsedMs = 65000 yields "00:01:06". -/
theorem C3_duration_formatting :
    (∀ e : ℤ, 0 ≤ e → formatDuration e = formatDuration_spec e) ∧
    formatDuration 65000 = "00:01:06" :=
  ⟨fd_eq_spec, fd_65000⟩

/-- C3 witness: the universally quantified part of the theorem applied at
elapsedMs = 65000. -/
theorem C3_duration_formatting_witness :
    (0 : ℤ) ≤ 65000 ∧ formatDuration 65000 = formatDuration_spec 65000 :=
  ⟨by norm_num, C3_duration_formatting.1 65000 (by norm_num)⟩

/-- C4: for every state with no active session (a session field absent),
calling `stop()` reports "No tracking session in progress" and changes
nothing: settings, view and the ledger are returned untouched and
`saveSettings()` does not run. -/
theorem C4_stop_without_session_noop (now : ℤ) (nowStr : String)
    (view : ViewState) (st : TimeTrackerSettings)
    (h : st.startTime = none ∨ st.currentNote = none) :
    stopTrackingTime now nowStr view st =
      ⟨st, view, ["No tracking session in progress"], false⟩ := by
  apply stop_inactive
  rcases h with h | h
  · left; rw [h]; rfl
  · right; rw [h]; rfl

/-- C4 witness: the theorem applied to the default settings, whose session
fields are both absent. -/
theorem C4_stop_without_session_noop_witness :
    (DEFAULT_SETTINGS.startTime = none ∨ DEFAULT_SETTINGS.currentNote = none) ∧
    stopTrackingTime 0 "now" ViewState.noLeaf DEFAULT_SETTINGS =
      ⟨DEFAULT_SETTINGS, ViewState.noLeaf,
        ["No tracking session in progress"], false⟩ :=
  ⟨Or.inl rfl,
    C4_stop_without_session_noop 0 "now" ViewState.noLeaf DEFAULT_SETTINGS
      (Or.inl rfl)⟩

/-- C5: for every document D and two sessions with elapsed times
`s1 - t1` and `s2 - t2`, the sequence start(D); stop(); start(D); stop()
leaves `DurationLedger[D] = (s1 - t1) + (s2 - t2)`: the ledger accumulates
additively in exact milliseconds, unaffected by display rounding. -/
theorem C5_ledger_accumulates (D : String) (hD : D ≠ "")
    (t1 s1 t2 s2 : ℤ) (ht1 : t1 ≠ 0) (ht2 : t2 ≠ 0)
    (st0 : TimeTrackerSettings) (h0 : lookupTT st0.timeTracking D = none)
    (v1 v2 : ViewState) (ns1 ns2 : String) :
    lookupTT (stopTrackingTime s2 ns2 v2
        ((startTrackingTime t2 (some D)
          (stopTrackingTime s1 ns1 v1
            ((startTrackingTime t1 (some D) st0).1)).settings).1)).settings.timeTracking
      D = some ((s1 - t1) + (s2 - t2)) := by
  have hst1 : (startTrackingTime t1 (some D) st0).1 =
      { st0 with startTime := some t1, currentNote := some D } := rfl
  rw [hst1]
  rw [stop_active s1 ns1 v1
    { st0 with startTime := some t1, currentNote := some D } t1 D rfl ht1 rfl hD]
  have hst2 : (startTrackingTime t2 (some D)
      { st0 with startTime := none, currentNote := none,
                 timeTracking := bumpTT st0.timeTracking D (s1 - t1) }).1 =
      { st0 with startTime := some t2, currentNote := some D,
                 timeTracking := bumpTT st0.timeTracking D (s1 - t1) } := rfl
  rw [hst2]
  rw [stop_active s2 ns2 v2
    { st0 with startTime := some t2, currentNote := some D,
               timeTracking := bumpTT st0.timeTracking D (s1 - t1) } t2 D rfl ht2
      rfl hD]
  show lookupTT (bumpTT (bumpTT st0.timeTracking D (s1 - t1)) D (s2 - t2)) D = _
  rw [lookup_bump, lookup_bump, h0]
  simp [add_assoc]

/-- C5 witness: the theorem applied to two concrete sessions (100 to 150 and
200 to 260 ms) on `note.md` starting from the default settings, giving the
ledger entry 110. -/
theorem C5_ledger_accumulates_witness :
    "note.md" ≠ "" ∧ (100 : ℤ) ≠ 0 ∧ (200 : ℤ) ≠ 0 ∧
    lookupTT DEFAULT_SETTINGS.timeTracking "note.md" = none ∧
    lookupTT (stopTrackingTime 260 "ts2" ViewState.noLeaf
        ((startTrackingTime 200 (some "note.md")
          (stopTrackingTime 150 "ts1" ViewState.noLeaf
            ((startTrackingTime 100 (some "note.md")
              DEFAULT_SETTINGS).1)).settings).1)).settings.timeTracking
      "note.md" = some ((150 - 100) + (260 - 200)) :=
  ⟨by decide, by decide, by decide, rfl,
    C5_ledger_accumulates "note.md" (by decide) 100 150 200 260 (by decide)
      (by decide) DEFAULT_SETTINGS rfl ViewState.noLeaf ViewState.noLeaf
      "ts1" "ts2"⟩

/-- C6: for every state with an active session for D1, calling start(D2)
succeeds, overwrites `startTime` and `currentNote` with the new session, and
leaves the `timeTracking` ledger completely unchanged — D1 gets no entry. -/
theorem C6_start_overwrites (now : ℤ) (D2 : String)
    (st : TimeTrackerSettings) (t : ℤ) (D1 : String)
    (_h1 : st.startTime = some t) (_h2 : st.currentNote = some D1) :
    startTrackingTime now (some D2) st =
      ({ st with startTime := some now, currentNote := some D2 },
        ["Time tracking started"], true) ∧
    ({ st with startTime := some now, currentNote := some D2 } :
        TimeTrackerSettings).timeTracking = st.timeTracking :=
  ⟨rfl, rfl⟩

/-- C6 witness: the theorem applied to the example active session on
`note.md`, restarted on `other.md` at time 99. -/
theorem C6_start_overwrites_witness :
    exampleActiveState.startTime = some 10 ∧
    exampleActiveState.currentNote = some "note.md" ∧
    (startTrackingTime 99 (some "other.md") exampleActiveState =
      ({ exampleActiveState with startTime := some 99,
                                  currentNote := some "other.md" },
        ["Time tracking started"], true) ∧
    ({ exampleActiveState with startTime := some 99,
                               currentNote := some "other.md" } :
        TimeTrackerSettings).timeTracking = exampleActiveState.timeTracking) :=
  ⟨rfl, rfl,
    C6_start_overwrites 99 "other.md" exampleActiveState 10 "note.md" rfl rfl⟩

/-- C7: when `stop()` runs with an active session but the focused view is
not a Markdown view, the elapsed duration is still added to the ledger, the
session is cleared and `saveSettings()` still runs; only the text insertion
is skipped, with the notice "No active Markdown file to log time". -/
theorem C7_stop_nonmarkdown_still_records (now : ℤ) (nowStr : String)
    (st : TimeTrackerSettings) (t : ℤ) (note : String)
    (ht : st.startTime = some t) (ht0 : t ≠ 0)
    (hn : st.currentNote = some note) (hn0 : note ≠ "") :
    stopTrackingTime now nowStr ViewState.nonMarkdown st =
      ⟨{ st with startTime := none, currentNote := none,
                 timeTracking := bumpTT st.timeTracking note (now - t) },
        ViewState.nonMarkdown, ["No active Markdown file to log time"], true⟩ ∧
    lookupTT (stopTrackingTime now nowStr
        ViewState.nonMarkdown st).settings.timeTracking note =
      some ((lookupTT st.timeTracking note).getD 0 + (now - t)) := by
  constructor
  · unfold stopTrackingTime
    rw [ht, hn]
    simp [jsTruthyNum, jsTruthyStr, ht0, hn0]
  · rw [stop_active now nowStr ViewState.nonMarkdown st t note ht ht0 hn hn0]
    show lookupTT (bumpTT st.timeTracking note (now - t)) note = _
    exact lookup_bump st.timeTracking note (now - t)

/-- C7 witness: the theorem applied to the example active session stopped at
time 25 over a non-Markdown view. -/
theorem C7_stop_nonmarkdown_still_records_witness :
    exampleActiveState.startTime = some 10 ∧ (10 : ℤ) ≠ 0 ∧
    exampleActiveState.currentNote = some "note.md" ∧ "note.md" ≠ "" ∧
    (stopTrackingTime 25 "ts" ViewState.nonMarkdown exampleActiveState =
      ⟨{ exampleActiveState with
          startTime := none, currentNote := none,
          timeTracking := bumpTT exampleActiveState.timeTracking "note.md"
            (25 - 10) },
        ViewState.nonMarkdown, ["No active Markdown file to log time"], true⟩ ∧
    lookupTT (stopTrackingTime 25 "ts"
        ViewState.nonMarkdown exampleActiveState).settings.timeTracking
      "note.md" =
      some ((lookupTT exampleActiveState.timeTracking "note.md").getD 0 +
        (25 - 10))) :=
  ⟨rfl, by decide, rfl, by decide,
    C7_stop_nonmarkdown_still_records 25 "ts" exampleActiveState 10 "note.md"
      rfl (by decide) rfl (by decide)⟩

/-- C8: at startup the persisted blob is merged over the defaults — every
missing key takes its default value (startTime and currentNote null,
dateHeader "Starting date", durationHeader "Overall duration",
logSectionHeader "Time Tracking Log", empty timeTracking) and every present
key overrides the default; the all-absent blob yields `DEFAULT_SETTINGS`. -/
theorem C8_load_merges_defaults :
    (∀ d : PersistedData, loadSettings d =
      { startTime := d.startTime.getD none,
        currentNote := d.currentNote.getD none,
        dateHeader := d.dateHeader.getD "Starting date",
        durationHeader := d.durationHeader.getD "Overall duration",
        logSectionHeader := d.logSectionHeader.getD "Time Tracking Log",
        timeTracking := d.timeTracking.getD [] }) ∧
    loadSettings emptyPersistedData = DEFAULT_SETTINGS :=
  ⟨fun _ => rfl, rfl⟩

/-- C9: a state whose stored startTime is the number 0, or whose stored
currentNote is the empty string, makes `stop()` report "No tracking session
in progress" with no state change, even though the session fields are
present (non-null): the activity test is JavaScript truthiness. -/
theorem C9_truthiness_inactive (now : ℤ) (nowStr : String) (view : ViewState)
    (st : TimeTrackerSettings)
    (h : st.startTime = some 0 ∨ st.currentNote = some "") :
    stopTrackingTime now nowStr view st =
      ⟨st, view, ["No tracking session in progress"], false⟩ := by
  apply stop_inactive
  rcases h with h | h
  · left; rw [h]; simp [jsTruthyNum]
  · right; rw [h]; simp [jsTruthyStr]

/-- C9 witness: the theorem applied to a state with `startTime = some 0` and
a non-null note `note.md`. -/
theorem C9_truthiness_inactive_witness :
    (({ startTime := some 0, currentNote := some "note.md",
         dateHeader := "Starting date", durationHeader := "Overall duration",
         logSectionHeader := "Time Tracking Log",
         timeTracking := [] } : TimeTrackerSettings).startTime = some 0 ∨
      ({ startTime := some 0, currentNote := some "note.md",
         dateHeader := "Starting date", durationHeader := "Overall duration",
         logSectionHeader := "Time Tracking Log",
         timeTracking := [] } : TimeTrackerSettings).currentNote = some "") ∧
    stopTrackingTime 50 "ts" ViewState.noLeaf
      { startTime := some 0, currentNote := some "note.md",
        dateHeader := "Starting date", durationHeader := "Overall duration",
        logSectionHeader := "Time Tracking Log", timeTracking := [] } =
      ⟨{ startTime := some 0, currentNote := some "note.md",
          dateHeader := "Starting date", durationHeader := "Overall duration",
          logSectionHeader := "Time Tracking Log", timeTracking := [] },
        ViewState.noLeaf, ["No tracking session in progress"], false⟩ :=
  ⟨Or.inl rfl,
    C9_truthiness_inactive 50 "ts" ViewState.noLeaf
      { startTime := some 0, currentNote := some "note.md",
        dateHeader := "Starting date", durationHeader := "Overall duration",
        logSectionHeader := "Time Tracking Log", timeTracking := [] }
      (Or.inl rfl)⟩

/-- C10: for every nonnegative elapsedMs the seconds component of the
formatted duration is a nonnegative multiple of 6 and at most 54; the
one-decimal minute rounding gives a 6-second display granularity and the
value 60 never appears. -/
theorem C10_seconds_granularity (e : ℤ) (h : 0 ≤ e) :
    6 ∣ jsRemainingSeconds e ∧ 0 ≤ jsRemainingSeconds e ∧
      jsRemainingSeconds e ≤ 54 :=
  secs_granular e h

/-- C10 witness: the theorem applied at elapsedMs = 65000, whose seconds
component is 6. -/
theorem C10_seconds_granularity_witness :
    (0 : ℤ) ≤ 65000 ∧
    (6 ∣ jsRemainingSeconds 65000 ∧ 0 ≤ jsRemainingSeconds 65000 ∧
      jsRemainingSeconds 65000 ≤ 54) :=
  ⟨by norm_num, C10_seconds_granularity 65000 (by norm_num)⟩
